import Mathlib

/-!
Verification of the IRAS callback API server (`src/main.py`, Flask).

Shallow embedding conventions:
* JSON values are modelled by `JVal` (null, bool, arbitrary-precision int,
  float modelled as a rational, string, list).  Python dicts carrying a
  decoded JSON payload are association lists `Dict`.
* Python string semantics are modelled on the ASCII fragment: `\d` of the
  `re` module is modelled as the ASCII digits, `[A-Z]` as the ASCII upper
  case letters, `str.upper`/`str.lower` map only the ASCII letters.
* Python's `re` anchor `$` matches at the end of the string and also just
  before a single trailing newline; `reMatchDollar` models an anchored
  pattern `^core$` with that semantics.
* `int(x)` is modelled by `pyIntConv` (truncation toward zero on floats,
  booleans as 0/1, string parsing with stripped ASCII whitespace) and
  `float(x)` by `pyFloatConv` (plain decimal string forms only; exponent
  and infinity spellings are outside the modelled fragment).
* Exceptions: `ValidationError` carries a message and an optional field
  name (every raise site in `main.py` leaves the field empty).  Any other
  exception reaching a handler's generic `except Exception` (for example
  `TypeError` from `', '.join` or `AttributeError` from `.upper()` on a
  non-string) is modelled by `PyExc.typeError` and turns into an HTTP 500.
* Request-environment data (request id from `uuid`, timestamp from
  `datetime.now()`, client address, HTTP method) is passed in as an opaque
  `Env`; the HTTP headers stored in a log entry are not modelled, and the
  human-readable rendering of non-string payload values inside messages is
  approximated by `pyStr` (no claim depends on it).
-/

/-! ## ASCII character classes and Python string helpers -/

def isAsciiDigit (c : Char) : Bool := 48 ≤ c.toNat && c.toNat ≤ 57

def isAsciiUpper (c : Char) : Bool := 65 ≤ c.toNat && c.toNat ≤ 90

def isAsciiLower (c : Char) : Bool := 97 ≤ c.toNat && c.toNat ≤ 122

/-- ASCII whitespace stripped by Python's `str.strip()` / `int(str)`. -/
def isPySpace (c : Char) : Bool :=
  c.toNat == 32 || c.toNat == 9 || c.toNat == 10 || c.toNat == 13 ||
  c.toNat == 11 || c.toNat == 12

/-- `str.upper` on one character (ASCII fragment). -/
def pyCharUpper (c : Char) : Char :=
  if isAsciiLower c then Char.ofNat (c.toNat - 32) else c

/-- `str.lower` on one character (ASCII fragment). -/
def pyCharLower (c : Char) : Char :=
  if isAsciiUpper c then Char.ofNat (c.toNat + 32) else c

/-- `str.upper` (ASCII fragment). -/
def pyUpper (s : String) : String := String.mk (s.data.map pyCharUpper)

/-- `str.lower` (ASCII fragment). -/
def pyLower (s : String) : String := String.mk (s.data.map pyCharLower)

/-- `str.strip()` on a character list. -/
def pyStrip (cs : List Char) : List Char :=
  ((cs.dropWhile isPySpace).reverse.dropWhile isPySpace).reverse

/-- Decimal value of a digit list (most significant first). -/
def digitsToNat (ds : List Char) : Nat :=
  ds.foldl (fun n c => 10 * n + (c.toNat - 48)) 0

/-- A nonempty all-digit run, as required inside `int(str)`. -/
def parseDigits (ds : List Char) : Option Nat :=
  if !ds.isEmpty && ds.all isAsciiDigit then some (digitsToNat ds) else none

/-- Python `int(s)` for a string `s`: optional surrounding whitespace,
optional sign, a nonempty digit run.  (Underscore separators of Python
literals are outside the modelled fragment.) -/
def pyIntOfChars? (cs0 : List Char) : Option Int :=
  match pyStrip cs0 with
  | [] => none
  | c :: rest =>
    if c == '+' then (parseDigits rest).map Int.ofNat
    else if c == '-' then (parseDigits rest).map (fun n => -(Int.ofNat n))
    else (parseDigits (c :: rest)).map Int.ofNat

def pyIntOfString? (s : String) : Option Int := pyIntOfChars? s.data

/-- Python `float(s)` for a string, decimal forms only. -/
def pyFloatOfChars? (cs0 : List Char) : Option Rat :=
  match pyStrip cs0 with
  | [] => none
  | c :: rest =>
    let signed : Bool × List Char :=
      if c == '+' then (false, rest)
      else if c == '-' then (true, rest)
      else (false, c :: rest)
    let body := signed.2
    let value : Option Rat :=
      match body.splitOn '.' with
      | [ip] => (parseDigits ip).map (fun n => (n : Rat))
      | [ip, fp] =>
        if (!ip.isEmpty || !fp.isEmpty) && ip.all isAsciiDigit && fp.all isAsciiDigit then
          some ((digitsToNat ip : Rat) + (digitsToNat fp : Rat) / (10 : Rat) ^ fp.length)
        else none
      | _ => none
    value.map (fun q => if signed.1 then -q else q)

/-- Truncation toward zero (T-division of numerator by denominator), the
behaviour of Python `int()` on a float. -/
def truncRat (q : Rat) : Int := q.num.tdiv q.den

/-! ## JSON values and payload dictionaries -/

inductive JVal where
  | jnull : JVal
  | jbool : Bool → JVal
  | jint : Int → JVal
  | jfloat : Rat → JVal
  | jstr : String → JVal
  | jlist : List JVal → JVal

/-- Python truthiness of a decoded JSON value. -/
def JVal.truthy : JVal → Bool
  | .jnull => false
  | .jbool b => b
  | .jint n => n != 0
  | .jfloat q => q != 0
  | .jstr s => s != ""
  | .jlist xs => !xs.isEmpty

/-- A decoded JSON object: association list from keys to values. -/
abbrev Dict := List (String × JVal)

/-- `data.get(k)` as an `Option` (`none` when the key is missing). -/
def dictGet (d : Dict) (k : String) : Option JVal :=
  (d.find? (fun p => p.1 == k)).map (fun p => p.2)

/-- Truthiness of `data.get(k)` (missing keys are falsy, like `None`). -/
def truthyOpt (v : Option JVal) : Bool :=
  match v with
  | none => false
  | some w => w.truthy

/-- `data[k]`; the handlers only index keys already known to be present. -/
def pyIndex (d : Dict) (k : String) : JVal := (dictGet d k).getD JVal.jnull

/-- `data.get(k)` where the caller then tests `is not None`: a JSON `null`
value is indistinguishable from a missing key. -/
def pyGet (d : Dict) (k : String) : Option JVal :=
  match dictGet d k with
  | some JVal.jnull => none
  | v => v

/-- Python `int(x)` on a decoded JSON value; `none` models the
`ValueError`/`TypeError` cases. -/
def pyIntConv : JVal → Option Int
  | .jint n => some n
  | .jbool b => some (if b then 1 else 0)
  | .jfloat q => some (truncRat q)
  | .jstr s => pyIntOfString? s
  | _ => none

/-- Python `float(x)` on a decoded JSON value. -/
def pyFloatConv : JVal → Option Rat
  | .jint n => some (n : Rat)
  | .jbool b => some (if b then 1 else 0)
  | .jfloat q => some q
  | .jstr s => pyFloatOfChars? s.data
  | _ => none

/-- `', '.join(x)`: succeeds on a string (joining its characters) or a
list of strings, raises `TypeError` (`none`) otherwise. -/
def pyJoin : JVal → Option String
  | .jstr s => some (String.intercalate ", " (s.data.map (fun c => String.mk [c])))
  | .jlist xs =>
    if xs.all (fun v => match v with | .jstr _ => true | _ => false) then
      some (String.intercalate ", "
        (xs.filterMap (fun v => match v with | .jstr s => some s | _ => none)))
    else none
  | _ => none

/-- `str(x)`, approximated; handler messages interpolate payload values
with it and no claim depends on the exact rendering. -/
def pyStr : JVal → String
  | .jstr s => s
  | .jint n => toString n
  | .jbool b => if b then "True" else "False"
  | .jnull => "None"
  | .jfloat q => toString q
  | .jlist _ => "[...]"

/-! ## Python `re` anchoring -/

/-- Anchored match `^core$` with Python semantics: `$` matches at the end
of the string or just before a single newline at the end of the string. -/
def reMatchDollar (core : List Char → Bool) (cs : List Char) : Bool :=
  core cs ||
    (match cs.getLast? with
     | some c => c == '\n' && core cs.dropLast
     | none => false)

/-- Body of `^\d{8}[A-Z]$|^\d{9}[A-Z]$` (the two alternatives, each fully
anchored). -/
def uenCoreChars (cs : List Char) : Bool :=
  (cs.length == 9 && (cs.take 8).all isAsciiDigit && (cs.drop 8).all isAsciiUpper) ||
  (cs.length == 10 && (cs.take 9).all isAsciiDigit && (cs.drop 9).all isAsciiUpper)

/-- Body of `^\d{6}$`. -/
def taxCoreChars (cs : List Char) : Bool :=
  cs.length == 6 && cs.all isAsciiDigit

/-! ## Validation errors and the validator class -/

/-- `ValidationError(message, field=None)`; every raise site in `main.py`
leaves `field` as `None`. -/
structure ValidationError where
  message : String
  field : Option String
deriving DecidableEq

/-- An exception escaping a validator: a `ValidationError` (caught and
turned into HTTP 400) or any other exception (HTTP 500). -/
inductive PyExc where
  | validation : ValidationError → PyExc
  | typeError : PyExc
deriving DecidableEq

def allowed_statuses : List String :=
  ["SUCCESS", "FAILED", "PROCESSING", "PENDING", "REJECTED", "CANCELLED"]

/-- `CallbackValidator.validate_required_fields`: collects every required
field whose `data.get(field)` is falsy. -/
def validate_required_fields (data : Dict) (required_fields : List String) :
    Except ValidationError Unit :=
  let missing_fields := required_fields.filter (fun field => !truthyOpt (dictGet data field))
  if missing_fields.isEmpty then .ok ()
  else .error ⟨"Missing required fields: " ++ String.intercalate ", " missing_fields, none⟩

/-- `CallbackValidator.validate_submission_status`.  A truthy non-string
argument raises `AttributeError` at `.upper()`, modelled by `typeError`. -/
def validate_submission_status (status : JVal) : Except PyExc String :=
  if status.truthy then
    match status with
    | JVal.jstr s =>
      let status_upper := pyUpper s
      if allowed_statuses.contains status_upper then .ok status_upper
      else .error (PyExc.validation
        ⟨"Invalid status. Must be one of: " ++ String.intercalate ", " allowed_statuses, none⟩)
    | _ => .error PyExc.typeError
  else .error (PyExc.validation ⟨"submissionStatus is required", none⟩)

/-- `CallbackValidator.validate_uen`. -/
def validate_uen (uen : JVal) : Except PyExc String :=
  if uen.truthy then
    match uen with
    | JVal.jstr s =>
      if reMatchDollar uenCoreChars s.data then .ok s
      else .error (PyExc.validation
        ⟨"Invalid UEN format. Expected format: 12345678A or 123456789A", none⟩)
    | _ => .error PyExc.typeError
  else .error (PyExc.validation ⟨"companyUEN is required", none⟩)

/-- `CallbackValidator.validate_form_type`. -/
def validate_form_type (form_type : JVal) : Except PyExc String :=
  if form_type.truthy then
    match form_type with
    | JVal.jstr s =>
      let form_type_upper := pyUpper s
      if form_type_upper == "F5" || form_type_upper == "F8" then .ok form_type_upper
      else .error (PyExc.validation ⟨"Invalid formType. Must be F5 or F8", none⟩)
    | _ => .error PyExc.typeError
  else .error (PyExc.validation ⟨"formType is required", none⟩)

/-- The year/month range checks at the end of `validate_tax_period`'s
`try` block (`if year < 2000 or year > 2100: ...`). -/
def taxBoundsCheck (s : String) (year month : Int) : Except PyExc String :=
  if year < 2000 || year > 2100 then
    .error (PyExc.validation ⟨"Invalid year in taxPeriod", none⟩)
  else if month < 1 || month > 12 then
    .error (PyExc.validation ⟨"Invalid month in taxPeriod", none⟩)
  else .ok s

/-- `CallbackValidator.validate_tax_period`: regex check, then
`int(tax_period[:4])` / `int(tax_period[4:])`, then range checks.  The
`except ValueError` branch is the `| _, _` fallback; a `ValidationError`
raised inside the `try` is not a `ValueError` and propagates. -/
def validate_tax_period (tax_period : JVal) : Except PyExc String :=
  if tax_period.truthy then
    match tax_period with
    | JVal.jstr s =>
      if reMatchDollar taxCoreChars s.data then
        match pyIntOfChars? (s.data.take 4), pyIntOfChars? (s.data.drop 4) with
        | some year, some month => taxBoundsCheck s year month
        | _, _ => .error (PyExc.validation ⟨"Invalid taxPeriod format", none⟩)
      else .error (PyExc.validation
        ⟨"Invalid taxPeriod format. Expected format: YYYYMM (e.g., 202412)", none⟩)
    | _ => .error PyExc.typeError
  else .error (PyExc.validation ⟨"taxPeriod is required", none⟩)

/-- The inline optional-integer block of the commission/donation handlers
(`total_records = int(total_records); if total_records < 0: ...` wrapped
in `except (ValueError, TypeError)`), for a field named `name`. -/
def validate_optional_int (name : String) (v : Option JVal) :
    Except ValidationError (Option Int) :=
  match v with
  | none => .ok none
  | some w =>
    match pyIntConv w with
    | none => .error ⟨name ++ " must be a valid integer", none⟩
    | some n =>
      if n < 0 then .error ⟨name ++ " must be non-negative", none⟩
      else .ok (some n)

/-- The inline optional-float block (amounts, stamp duty), for a field
named `name`. -/
def validate_optional_float (name : String) (v : Option JVal) :
    Except ValidationError (Option Rat) :=
  match v with
  | none => .ok none
  | some w =>
    match pyFloatConv w with
    | none => .error ⟨name ++ " must be a valid number", none⟩
    | some q =>
      if q < 0 then .error ⟨name ++ " must be non-negative", none⟩
      else .ok (some q)

/-! ## The callback store -/

def MAX_LOGS : Nat := 200

/-- `callback_logs.append(entry)` followed by
`if len(callback_logs) > MAX_LOGS: callback_logs.pop(0)`. -/
def appendLog {α : Type} (logs : List α) (entry : α) : List α :=
  if (logs ++ [entry]).length > MAX_LOGS then (logs ++ [entry]).drop 1
  else logs ++ [entry]

/-- One mutation of the store: an accepted append, or `DELETE /logs`. -/
inductive StoreOp (α : Type) where
  | append : α → StoreOp α
  | clear : StoreOp α

def storeStep {α : Type} (logs : List α) : StoreOp α → List α
  | .append r => appendLog logs r
  | .clear => []

/-- The store contents after a sequence of operations from the empty
store. -/
def runOps {α : Type} (ops : List (StoreOp α)) : List α :=
  ops.foldl storeStep []

/-- The records accepted by a sequence of operations, in acceptance
order. -/
def appendedRecords {α : Type} (ops : List (StoreOp α)) : List α :=
  ops.filterMap (fun op => match op with | .append r => some r | .clear => none)

/-! ## Log entries and the endpoint layer -/

/-- Request-environment data: `uuid`-generated request id,
`datetime.now()` timestamp, client address, HTTP method. -/
structure Env where
  requestId : String
  timestamp : String
  clientIp : String
  method : String

/-- One element of `callback_logs` (the request headers, also stored by
the code, are not modelled). -/
structure LogEntry where
  requestId : String
  timestamp : String
  endpoint : String
  callback_data : Dict
  client_ip : String
  method : String
  status : JVal

/-- The log entry built inside `log_callback`. -/
def mkLogEntry (env : Env) (endpoint : String) (callback_data : Dict) : LogEntry :=
  { requestId := env.requestId
    timestamp := env.timestamp
    endpoint := endpoint
    callback_data := callback_data
    client_ip := env.clientIp
    method := env.method
    status := (dictGet callback_data "submissionStatus").getD (JVal.jstr "UNKNOWN") }

/-- `log_callback`: append the entry with FIFO eviction and return the
request id. -/
def log_callback (env : Env) (endpoint : String) (callback_data : Dict)
    (logs : List LogEntry) : String × List LogEntry :=
  (env.requestId, appendLog logs (mkLogEntry env endpoint callback_data))

/-- `create_success_response` (its `datetime.now()` timestamp field is
environment data and not modelled). -/
structure SuccessResponse where
  status : String
  message : String
  submissionId : JVal
  requestId : String

def create_success_response (message : String) (submission_id : JVal)
    (request_id : String) : SuccessResponse :=
  { status := "received", message := message, submissionId := submission_id,
    requestId := request_id }

/-- Outcome of one handler call: HTTP 200 with the success body, HTTP 400
with the `ValidationError`, or HTTP 500. -/
inductive HandlerResult where
  | ok200 : SuccessResponse → HandlerResult
  | err400 : ValidationError → HandlerResult
  | err500 : HandlerResult

/-! ### GST return handler -/

def gst_required_fields : List String :=
  ["submissionId", "submissionStatus", "formType",
   "submissionDateTime", "companyUEN", "taxPeriod"]

structure GstFields where
  submissionId : JVal
  submissionStatus : String
  formType : String
  submissionDateTime : JVal
  companyUEN : String
  taxPeriod : String
  ackNumber : Option JVal
  totalTax : Option Rat
  errors : JVal

/-- The validation prefix of `gst_return_callback` (everything before
`log_callback`), in source order. -/
def gstValidate (data : Dict) : Except PyExc GstFields :=
  match validate_required_fields data gst_required_fields with
  | .error e => .error (PyExc.validation e)
  | .ok _ =>
    match validate_submission_status (pyIndex data "submissionStatus") with
    | .error ex => .error ex
    | .ok submission_status =>
      match validate_form_type (pyIndex data "formType") with
      | .error ex => .error ex
      | .ok form_type =>
        match validate_uen (pyIndex data "companyUEN") with
        | .error ex => .error ex
        | .ok company_uen =>
          match validate_tax_period (pyIndex data "taxPeriod") with
          | .error ex => .error ex
          | .ok tax_period =>
            match validate_optional_float "totalTaxAmount" (pyGet data "totalTaxAmount") with
            | .error e => .error (PyExc.validation e)
            | .ok total_tax =>
              .ok { submissionId := pyIndex data "submissionId"
                    submissionStatus := submission_status
                    formType := form_type
                    submissionDateTime := pyIndex data "submissionDateTime"
                    companyUEN := company_uen
                    taxPeriod := tax_period
                    ackNumber := pyGet data "acknowledgementNumber"
                    totalTax := total_tax
                    errors := (dictGet data "errors").getD (JVal.jlist []) }

/-- The normalized `callback_data` dict built by `gst_return_callback`. -/
def gstCallbackData (f : GstFields) : Dict :=
  [("submissionId", f.submissionId),
   ("submissionStatus", JVal.jstr f.submissionStatus),
   ("formType", JVal.jstr f.formType),
   ("submissionDateTime", f.submissionDateTime),
   ("companyUEN", JVal.jstr f.companyUEN),
   ("taxPeriod", JVal.jstr f.taxPeriod),
   ("acknowledgementNumber", f.ackNumber.getD JVal.jnull),
   ("totalTaxAmount", match f.totalTax with | none => JVal.jnull | some q => JVal.jfloat q),
   ("errors", f.errors)]

/-- The status-dependent message block of `gst_return_callback`; in the
FAILED branch `', '.join(errors)` is evaluated when `errors` is truthy and
raises `TypeError` on non-string members. -/
def gstMessage (f : GstFields) : Except PyExc String :=
  if f.submissionStatus == "SUCCESS" then
    .ok ("GST " ++ f.formType ++ " submission for period " ++ f.taxPeriod ++
      " processed successfully")
  else if f.submissionStatus == "FAILED" then
    if f.errors.truthy then
      match pyJoin f.errors with
      | none => .error PyExc.typeError
      | some _ => .ok ("GST " ++ f.formType ++ " submission for period " ++
          f.taxPeriod ++ " failed")
    else .ok ("GST " ++ f.formType ++ " submission for period " ++ f.taxPeriod ++ " failed")
  else
    .ok ("GST " ++ f.formType ++ " submission for period " ++ f.taxPeriod ++
      " is " ++ pyLower f.submissionStatus)

/-- `POST /iras/gst-return/callback`.  A `ValidationError` yields HTTP 400
with the store untouched; any other exception yields HTTP 500 — note that
the message block runs after `log_callback`, so its `TypeError` leaves the
appended record in the store. -/
def gst_return_callback (env : Env) (data : Dict) (logs : List LogEntry) :
    HandlerResult × List LogEntry :=
  match gstValidate data with
  | .error (PyExc.validation e) => (HandlerResult.err400 e, logs)
  | .error PyExc.typeError => (HandlerResult.err500, logs)
  | .ok f =>
    let pair := log_callback env "GST-RETURN" (gstCallbackData f) logs
    match gstMessage f with
    | .error _ => (HandlerResult.err500, pair.2)
    | .ok message =>
      (HandlerResult.ok200 (create_success_response message f.submissionId pair.1), pair.2)

/-! ### Form CS handler -/

def form_cs_required_fields : List String :=
  ["submissionId", "submissionStatus", "submissionDateTime",
   "companyUEN", "formVersion", "filingType"]

structure FormCsFields where
  submissionId : JVal
  submissionStatus : String
  submissionDateTime : JVal
  companyUEN : String
  formVersion : JVal
  filingType : JVal
  effectiveDate : JVal
  ackNumber : JVal
  errors : JVal

def formCsValidate (data : Dict) : Except PyExc FormCsFields :=
  match validate_required_fields data form_cs_required_fields with
  | .error e => .error (PyExc.validation e)
  | .ok _ =>
    match validate_submission_status (pyIndex data "submissionStatus") with
    | .error ex => .error ex
    | .ok submission_status =>
      match validate_uen (pyIndex data "companyUEN") with
      | .error ex => .error ex
      | .ok company_uen =>
        .ok { submissionId := pyIndex data "submissionId"
              submissionStatus := submission_status
              submissionDateTime := pyIndex data "submissionDateTime"
              companyUEN := company_uen
              formVersion := pyIndex data "formVersion"
              filingType := pyIndex data "filingType"
              effectiveDate := (dictGet data "effectiveDate").getD JVal.jnull
              ackNumber := (dictGet data "acknowledgementNumber").getD JVal.jnull
              errors := (dictGet data "errors").getD (JVal.jlist []) }

def formCsCallbackData (f : FormCsFields) : Dict :=
  [("submissionId", f.submissionId),
   ("submissionStatus", JVal.jstr f.submissionStatus),
   ("submissionDateTime", f.submissionDateTime),
   ("companyUEN", JVal.jstr f.companyUEN),
   ("formVersion", f.formVersion),
   ("filingType", f.filingType),
   ("effectiveDate", f.effectiveDate),
   ("acknowledgementNumber", f.ackNumber),
   ("errors", f.errors)]

def formCsMessage (f : FormCsFields) : Except PyExc String :=
  if f.submissionStatus == "SUCCESS" then
    .ok ("Form CS (" ++ pyStr f.filingType ++ ") submission processed successfully")
  else if f.submissionStatus == "FAILED" then
    if f.errors.truthy then
      match pyJoin f.errors with
      | none => .error PyExc.typeError
      | some _ => .ok ("Form CS (" ++ pyStr f.filingType ++ ") submission failed")
    else .ok ("Form CS (" ++ pyStr f.filingType ++ ") submission failed")
  else
    .ok ("Form CS (" ++ pyStr f.filingType ++ ") submission is " ++
      pyLower f.submissionStatus)

/-- `POST /iras/form-cs/callback`. -/
def form_cs_callback (env : Env) (data : Dict) (logs : List LogEntry) :
    HandlerResult × List LogEntry :=
  match formCsValidate data with
  | .error (PyExc.validation e) => (HandlerResult.err400 e, logs)
  | .error PyExc.typeError => (HandlerResult.err500, logs)
  | .ok f =>
    let pair := log_callback env "FORM-CS" (formCsCallbackData f) logs
    match formCsMessage f with
    | .error _ => (HandlerResult.err500, pair.2)
    | .ok message =>
      (HandlerResult.ok200 (create_success_response message f.submissionId pair.1), pair.2)

/-! ### Commission records handler -/

def commission_required_fields : List String :=
  ["submissionId", "submissionStatus", "submissionDateTime",
   "companyUEN", "recordType", "recordPeriod"]

structure CommissionFields where
  submissionId : JVal
  submissionStatus : String
  submissionDateTime : JVal
  companyUEN : String
  recordType : JVal
  recordPeriod : JVal
  totalRecords : Option Int
  totalCommission : Option Rat
  ackNumber : JVal
  errors : JVal

def commissionValidate (data : Dict) : Except PyExc CommissionFields :=
  match validate_required_fields data commission_required_fields with
  | .error e => .error (PyExc.validation e)
  | .ok _ =>
    match validate_submission_status (pyIndex data "submissionStatus") with
    | .error ex => .error ex
    | .ok submission_status =>
      match validate_uen (pyIndex data "companyUEN") with
      | .error ex => .error ex
      | .ok company_uen =>
        match validate_optional_int "totalRecords" (pyGet data "totalRecords") with
        | .error e => .error (PyExc.validation e)
        | .ok total_records =>
          match validate_optional_float "totalCommissionAmount"
              (pyGet data "totalCommissionAmount") with
          | .error e => .error (PyExc.validation e)
          | .ok total_commission =>
            .ok { submissionId := pyIndex data "submissionId"
                  submissionStatus := submission_status
                  submissionDateTime := pyIndex data "submissionDateTime"
                  companyUEN := company_uen
                  recordType := pyIndex data "recordType"
                  recordPeriod := pyIndex data "recordPeriod"
                  totalRecords := total_records
                  totalCommission := total_commission
                  ackNumber := (dictGet data "acknowledgementNumber").getD JVal.jnull
                  errors := (dictGet data "errors").getD (JVal.jlist []) }

def commissionCallbackData (f : CommissionFields) : Dict :=
  [("submissionId", f.submissionId),
   ("submissionStatus", JVal.jstr f.submissionStatus),
   ("submissionDateTime", f.submissionDateTime),
   ("companyUEN", JVal.jstr f.companyUEN),
   ("recordType", f.recordType),
   ("recordPeriod", f.recordPeriod),
   ("totalRecords", match f.totalRecords with | none => JVal.jnull | some n => JVal.jint n),
   ("totalCommissionAmount",
     match f.totalCommission with | none => JVal.jnull | some q => JVal.jfloat q),
   ("acknowledgementNumber", f.ackNumber),
   ("errors", f.errors)]

def commissionMessage (f : CommissionFields) : Except PyExc String :=
  if f.submissionStatus == "SUCCESS" then
    .ok ("Commission records (" ++ pyStr f.recordType ++ ") for " ++
      pyStr f.recordPeriod ++ " processed successfully")
  else if f.submissionStatus == "FAILED" then
    if f.errors.truthy then
      match pyJoin f.errors with
      | none => .error PyExc.typeError
      | some _ => .ok ("Commission records (" ++ pyStr f.recordType ++ ") submission failed")
    else .ok ("Commission records (" ++ pyStr f.recordType ++ ") submission failed")
  else
    .ok ("Commission records (" ++ pyStr f.recordType ++ ") submission is " ++
      pyLower f.submissionStatus)

/-- `POST /iras/commission-records/callback`. -/
def commission_records_callback (env : Env) (data : Dict) (logs : List LogEntry) :
    HandlerResult × List LogEntry :=
  match commissionValidate data with
  | .error (PyExc.validation e) => (HandlerResult.err400 e, logs)
  | .error PyExc.typeError => (HandlerResult.err500, logs)
  | .ok f =>
    let pair := log_callback env "COMMISSION-RECORDS" (commissionCallbackData f) logs
    match commissionMessage f with
    | .error _ => (HandlerResult.err500, pair.2)
    | .ok message =>
      (HandlerResult.ok200 (create_success_response message f.submissionId pair.1), pair.2)

/-! ### Donation records handler -/

def donation_required_fields : List String :=
  ["submissionId", "submissionStatus", "submissionDateTime",
   "companyUEN", "donationType", "donationPeriod"]

structure DonationFields where
  submissionId : JVal
  submissionStatus : String
  submissionDateTime : JVal
  companyUEN : String
  donationType : JVal
  donationPeriod : JVal
  totalDonations : Option Int
  totalAmount : Option Rat
  ackNumber : JVal
  errors : JVal

def donationValidate (data : Dict) : Except PyExc DonationFields :=
  match validate_required_fields data donation_required_fields with
  | .error e => .error (PyExc.validation e)
  | .ok _ =>
    match validate_submission_status (pyIndex data "submissionStatus") with
    | .error ex => .error ex
    | .ok submission_status =>
      match validate_uen (pyIndex data "companyUEN") with
      | .error ex => .error ex
      | .ok company_uen =>
        match validate_optional_int "totalDonations" (pyGet data "totalDonations") with
        | .error e => .error (PyExc.validation e)
        | .ok total_donations =>
          match validate_optional_float "totalDonationAmount"
              (pyGet data "totalDonationAmount") with
          | .error e => .error (PyExc.validation e)
          | .ok total_amount =>
            .ok { submissionId := pyIndex data "submissionId"
                  submissionStatus := submission_status
                  submissionDateTime := pyIndex data "submissionDateTime"
                  companyUEN := company_uen
                  donationType := pyIndex data "donationType"
                  donationPeriod := pyIndex data "donationPeriod"
                  totalDonations := total_donations
                  totalAmount := total_amount
                  ackNumber := (dictGet data "acknowledgementNumber").getD JVal.jnull
                  errors := (dictGet data "errors").getD (JVal.jlist []) }

def donationCallbackData (f : DonationFields) : Dict :=
  [("submissionId", f.submissionId),
   ("submissionStatus", JVal.jstr f.submissionStatus),
   ("submissionDateTime", f.submissionDateTime),
   ("companyUEN", JVal.jstr f.companyUEN),
   ("donationType", f.donationType),
   ("donationPeriod", f.donationPeriod),
   ("totalDonations", match f.totalDonations with | none => JVal.jnull | some n => JVal.jint n),
   ("totalDonationAmount",
     match f.totalAmount with | none => JVal.jnull | some q => JVal.jfloat q),
   ("acknowledgementNumber", f.ackNumber),
   ("errors", f.errors)]

def donationMessage (f : DonationFields) : Except PyExc String :=
  if f.submissionStatus == "SUCCESS" then
    .ok ("Donation records (" ++ pyStr f.donationType ++ ") for " ++
      pyStr f.donationPeriod ++ " processed successfully")
  else if f.submissionStatus == "FAILED" then
    if f.errors.truthy then
      match pyJoin f.errors with
      | none => .error PyExc.typeError
      | some _ => .ok ("Donation records (" ++ pyStr f.donationType ++ ") submission failed")
    else .ok ("Donation records (" ++ pyStr f.donationType ++ ") submission failed")
  else
    .ok ("Donation records (" ++ pyStr f.donationType ++ ") submission is " ++
      pyLower f.submissionStatus)

/-- `POST /iras/donation-records/callback`. -/
def donation_records_callback (env : Env) (data : Dict) (logs : List LogEntry) :
    HandlerResult × List LogEntry :=
  match donationValidate data with
  | .error (PyExc.validation e) => (HandlerResult.err400 e, logs)
  | .error PyExc.typeError => (HandlerResult.err500, logs)
  | .ok f =>
    let pair := log_callback env "DONATION-RECORDS" (donationCallbackData f) logs
    match donationMessage f with
    | .error _ => (HandlerResult.err500, pair.2)
    | .ok message =>
      (HandlerResult.ok200 (create_success_response message f.submissionId pair.1), pair.2)

/-! ### E-stamping handler -/

def e_stamping_required_fields : List String :=
  ["submissionId", "submissionStatus", "submissionDateTime",
   "companyUEN", "documentType"]

structure EStampingFields where
  submissionId : JVal
  submissionStatus : String
  submissionDateTime : JVal
  companyUEN : String
  documentType : JVal
  stampDuty : Option Rat
  certNumber : JVal
  ackNumber : JVal
  errors : JVal

def eStampingValidate (data : Dict) : Except PyExc EStampingFields :=
  match validate_required_fields data e_stamping_required_fields with
  | .error e => .error (PyExc.validation e)
  | .ok _ =>
    match validate_submission_status (pyIndex data "submissionStatus") with
    | .error ex => .error ex
    | .ok submission_status =>
      match validate_uen (pyIndex data "companyUEN") with
      | .error ex => .error ex
      | .ok company_uen =>
        match validate_optional_float "stampDuty" (pyGet data "stampDuty") with
        | .error e => .error (PyExc.validation e)
        | .ok stamp_duty =>
          .ok { submissionId := pyIndex data "submissionId"
                submissionStatus := submission_status
                submissionDateTime := pyIndex data "submissionDateTime"
                companyUEN := company_uen
                documentType := pyIndex data "documentType"
                stampDuty := stamp_duty
                certNumber := (dictGet data "stampCertificateNumber").getD JVal.jnull
                ackNumber := (dictGet data "acknowledgementNumber").getD JVal.jnull
                errors := (dictGet data "errors").getD (JVal.jlist []) }

def eStampingCallbackData (f : EStampingFields) : Dict :=
  [("submissionId", f.submissionId),
   ("submissionStatus", JVal.jstr f.submissionStatus),
   ("submissionDateTime", f.submissionDateTime),
   ("companyUEN", JVal.jstr f.companyUEN),
   ("documentType", f.documentType),
   ("stampDuty", match f.stampDuty with | none => JVal.jnull | some q => JVal.jfloat q),
   ("stampCertificateNumber", f.certNumber),
   ("acknowledgementNumber", f.ackNumber),
   ("errors", f.errors)]

def eStampingMessage (f : EStampingFields) : Except PyExc String :=
  if f.submissionStatus == "SUCCESS" then
    .ok ("E-stamping for " ++ pyStr f.documentType ++ " processed successfully")
  else if f.submissionStatus == "FAILED" then
    if f.errors.truthy then
      match pyJoin f.errors with
      | none => .error PyExc.typeError
      | some _ => .ok ("E-stamping for " ++ pyStr f.documentType ++ " submission failed")
    else .ok ("E-stamping for " ++ pyStr f.documentType ++ " submission failed")
  else
    .ok ("E-stamping for " ++ pyStr f.documentType ++ " submission is " ++
      pyLower f.submissionStatus)

/-- `POST /iras/e-stamping/callback`. -/
def e_stamping_callback (env : Env) (data : Dict) (logs : List LogEntry) :
    HandlerResult × List LogEntry :=
  match eStampingValidate data with
  | .error (PyExc.validation e) => (HandlerResult.err400 e, logs)
  | .error PyExc.typeError => (HandlerResult.err500, logs)
  | .ok f =>
    let pair := log_callback env "E-STAMPING" (eStampingCallbackData f) logs
    match eStampingMessage f with
    | .error _ => (HandlerResult.err500, pair.2)
    | .ok message =>
      (HandlerResult.ok200 (create_success_response message f.submissionId pair.1), pair.2)

/-! ### Read and admin endpoints -/

/-- `request.args.get('limit', 10, type=int)`: a missing or unparsable
parameter yields the default 10. -/
def parseLimitParam (p : Option String) : Int :=
  match p with
  | none => 10
  | some s => (pyIntOfString? s).getD 10

/-- Python slice `l[i:]`: a negative start counts from the end (clamped
at 0), a nonnegative start is clamped at `len(l)`. -/
def pySliceFrom {α : Type} (l : List α) (i : Int) : List α :=
  let n : Int := l.length
  let start : Int := if i < 0 then max (n + i) 0 else min i n
  l.drop start.toNat

/-- `GET /logs`: `limit = min(limit, 50)` then
`callback_logs[-limit:] if callback_logs else []`. -/
def get_callback_logs {α : Type} (logs : List α) (limitParam : Option String) : List α :=
  let limit := min (parseLimitParam limitParam) 50
  if logs.isEmpty then [] else pySliceFrom logs (-limit)

/-- `DELETE /logs`: reads `len(callback_logs)` and clears; the response
interpolates the removed count. -/
def clear_logs {α : Type} (logs : List α) : Nat × List α :=
  (logs.length, [])

/-! ## Basic facts about the store -/

theorem appendLog_length {α : Type} (logs : List α) (r : α) :
    (appendLog logs r).length =
      if logs.length + 1 > MAX_LOGS then logs.length else logs.length + 1 := by
  simp only [appendLog, List.length_append, List.length_singleton]
  split <;> simp only [List.length_drop, List.length_append, List.length_singleton] <;> omega

theorem appendLog_length_le {α : Type} (logs : List α) (r : α)
    (h : logs.length ≤ MAX_LOGS) : (appendLog logs r).length ≤ MAX_LOGS := by
  rw [appendLog_length]
  split <;> omega

theorem foldl_storeStep_length_le {α : Type} (ops : List (StoreOp α)) (init : List α)
    (h : init.length ≤ MAX_LOGS) : (ops.foldl storeStep init).length ≤ MAX_LOGS := by
  induction ops generalizing init with
  | nil => simpa using h
  | cons op rest ih =>
    cases op with
    | append r => exact ih _ (appendLog_length_le _ _ h)
    | clear => exact ih [] (Nat.zero_le _)

theorem appendLog_sublist {α : Type} {s acc : List α} (r : α) (h : s.Sublist acc) :
    (appendLog s r).Sublist (acc ++ [r]) := by
  simp only [appendLog]
  split
  · exact (List.drop_sublist 1 (s ++ [r])).trans (h.append (List.Sublist.refl [r]))
  · exact h.append (List.Sublist.refl [r])

theorem foldl_storeStep_sublist {α : Type} (ops : List (StoreOp α)) (s acc : List α)
    (h : s.Sublist acc) :
    (ops.foldl storeStep s).Sublist (acc ++ appendedRecords ops) := by
  induction ops generalizing s acc with
  | nil => simpa [appendedRecords] using h
  | cons op rest ih =>
    cases op with
    | append r =>
      have h3 := ih (appendLog s r) (acc ++ [r]) (appendLog_sublist r h)
      simpa [appendedRecords, List.filterMap_cons, List.append_assoc, storeStep] using h3
    | clear =>
      have h3 := ih [] acc (List.nil_sublist acc)
      simpa [appendedRecords, List.filterMap_cons, storeStep] using h3

set_option maxRecDepth 8000 in
/-- C1: starting from an empty store, any sequence of append and clear
operations leaves at most `MAX_LOGS` (200) records; an append from a full
store removes exactly the record at index 0; appending the 201 records
`0, 1, ..., 200` to an empty store leaves exactly the 200 records
`1, ..., 200` (the first appended record `0` is gone and the second
appended record `1` is the oldest survivor); and the store contents are
always a subsequence of the accepted records in acceptance order. -/
theorem C1_store_bounded_fifo :
    (∀ (α : Type) (ops : List (StoreOp α)), (runOps ops).length ≤ MAX_LOGS) ∧
    (∀ (α : Type) (logs : List α) (r : α), logs.length = MAX_LOGS →
      appendLog logs r = logs.drop 1 ++ [r]) ∧
    (runOps ((List.range 201).map StoreOp.append) = List.range' 1 200 ∧
      (runOps ((List.range 201).map StoreOp.append)).length = 200 ∧
      0 ∉ runOps ((List.range 201).map StoreOp.append) ∧
      (runOps ((List.range 201).map StoreOp.append)).head? = some 1) ∧
    (∀ (α : Type) (ops : List (StoreOp α)),
      (runOps ops).Sublist (appendedRecords ops)) := by
  refine ⟨fun α ops => foldl_storeStep_length_le ops [] (by simp), ?_, ?_, ?_⟩
  · intro α logs r h
    have hlen : (logs ++ [r]).length > MAX_LOGS := by
      simp only [List.length_append, List.length_singleton]; omega
    have h1 : 1 ≤ logs.length := by rw [h]; decide
    simp only [appendLog, if_pos hlen]
    exact List.drop_append_of_le_length h1
  · have h : runOps ((List.range 201).map StoreOp.append) = List.range' 1 200 := by decide
    refine ⟨h, by rw [h]; decide, by rw [h]; decide, by rw [h]; decide⟩
  · intro α ops
    have h := foldl_storeStep_sublist ops [] [] (List.Sublist.refl [])
    simpa [runOps] using h

/-- Witness for C1 at a concrete full store: appending `7` to a store of
200 zeros drops the record at index 0. -/
theorem C1_store_bounded_fifo_witness :
    appendLog (List.replicate 200 (0 : Nat)) 7 =
      (List.replicate 200 (0 : Nat)).drop 1 ++ [7] :=
  C1_store_bounded_fifo.2.1 Nat (List.replicate 200 0) 7
    (by simp only [List.length_replicate, MAX_LOGS])

/-- C9: `DELETE /logs` reports the current record count as the number
removed and empties the history, and a subsequent `GET /logs` (with any
limit parameter) returns no records; both operations are total functions
of the store, so no domain error can be raised. -/
theorem C9_clear_logs :
    ∀ (α : Type) (logs : List α) (p : Option String),
      clear_logs logs = (logs.length, ([] : List α)) ∧
      get_callback_logs (clear_logs logs).2 p = [] := by
  intro α logs p
  refine ⟨rfl, ?_⟩
  simp [clear_logs, get_callback_logs]

theorem get_callback_logs_characterization {α : Type} (logs : List α)
    (p : Option String) (h : 1 ≤ parseLimitParam p) :
    (get_callback_logs logs p).length =
      min (min (parseLimitParam p) 50).toNat logs.length ∧
    (get_callback_logs logs p) <:+ logs := by
  simp only [get_callback_logs, pySliceFrom]
  split
  · rename_i hempty
    have : logs = [] := by simpa [List.isEmpty_iff] using hempty
    subst this
    simp
  · constructor
    · simp only [List.length_drop]
      have h50 : (1 : Int) ≤ min (parseLimitParam p) 50 := by omega
      split <;> omega
    · split <;> exact List.drop_suffix _ _

/-- C6 (amended): for any store state, a requested limit that parses to a
positive integer returns the `min(limit, 50)` most recent records (fewer
if the store is smaller) as a suffix of the store, hence at most 50
records; an absent or unparsable limit defaults to 10; an empty store
always yields an empty result.  (The original claim fails for requested
limits `≤ 0`, which the code does not clamp from below.) -/
theorem C6_logs_window_amended :
    (∀ (α : Type) (logs : List α) (p : Option String), 1 ≤ parseLimitParam p →
      (get_callback_logs logs p).length =
        min (min (parseLimitParam p) 50).toNat logs.length ∧
      (get_callback_logs logs p) <:+ logs ∧
      (get_callback_logs logs p).length ≤ 50) ∧
    (∀ (α : Type) (logs : List α), (get_callback_logs logs none).length ≤ 10 ∧
      (get_callback_logs logs none) <:+ logs) ∧
    (∀ (α : Type) (p : Option String), get_callback_logs ([] : List α) p = []) := by
  refine ⟨?_, ?_, ?_⟩
  · intro α logs p h
    obtain ⟨h1, h2⟩ := get_callback_logs_characterization logs p h
    refine ⟨h1, h2, ?_⟩
    rw [h1]
    omega
  · intro α logs
    have h : (1 : Int) ≤ parseLimitParam none := by simp [parseLimitParam]
    obtain ⟨h1, h2⟩ := get_callback_logs_characterization logs none h
    refine ⟨?_, h2⟩
    rw [h1]
    simp only [parseLimitParam]
    omega
  · intro α p
    simp [get_callback_logs]

/-- C6 counterexample: the claim promises at most 50 records for every
requested limit, but a requested limit of `0` is kept by `min(limit, 50)`
and the slice `callback_logs[-0:]` is the whole list: with 51 stored
records, `GET /logs?limit=0` returns all 51. -/
theorem C6_counterexample :
    parseLimitParam (some "0") = 0 ∧
    (get_callback_logs (List.replicate 51 (0 : Nat)) (some "0")).length = 51 := by
  constructor
  · rfl
  · rfl

/-- Witness for C6 (amended) at a concrete store and limit:
`GET /logs?limit=2` on a 3-record store returns the last 2 records. -/
theorem C6_logs_window_amended_witness :
    (get_callback_logs [10, 20, 30] (some "2")).length =
      min (min (parseLimitParam (some "2")) 50).toNat [10, 20, 30].length ∧
    (get_callback_logs [10, 20, 30] (some "2")) <:+ [10, 20, 30] ∧
    (get_callback_logs [10, 20, 30] (some "2")).length ≤ 50 :=
  C6_logs_window_amended.1 Nat [10, 20, 30] (some "2") (by decide)

/-- Exactly the falsy JSON values: null, false, integer 0, float 0.0, the
empty string, and the empty list. -/
theorem truthy_eq_false_iff (v : JVal) :
    v.truthy = false ↔ (v = JVal.jnull ∨ v = JVal.jbool false ∨ v = JVal.jint 0 ∨
      v = JVal.jfloat 0 ∨ v = JVal.jstr "" ∨ v = JVal.jlist []) := by
  cases v <;> simp [JVal.truthy, List.isEmpty_iff]

/-- C3 (amended): `validate_required_fields` passes iff every named field
is present with a truthy value; otherwise it fails with the message
`Missing required fields: ` followed by the comma-joined list of every
offending field and no field tag.  A field counts as missing not only
when it is absent, null or the empty string, but for every falsy value
(false, 0, 0.0, empty list). -/
theorem C3_required_fields_amended :
    ∀ (data : Dict) (names : List String),
      (validate_required_fields data names = .ok () ↔
        ∀ f ∈ names, truthyOpt (dictGet data f) = true) ∧
      (names.filter (fun f => !truthyOpt (dictGet data f)) ≠ [] →
        validate_required_fields data names =
          .error ⟨"Missing required fields: " ++ String.intercalate ", "
            (names.filter (fun f => !truthyOpt (dictGet data f))), none⟩) ∧
      (∀ v : JVal, truthyOpt (some v) = false ↔
        (v = JVal.jnull ∨ v = JVal.jbool false ∨ v = JVal.jint 0 ∨
          v = JVal.jfloat 0 ∨ v = JVal.jstr "" ∨ v = JVal.jlist [])) ∧
      truthyOpt none = false := by
  intro data names
  refine ⟨?_, ?_, fun v => truthy_eq_false_iff v, rfl⟩
  · simp only [validate_required_fields]
    split
    · rename_i hnil
      simp only [List.isEmpty_iff, List.filter_eq_nil_iff] at hnil
      simp only [true_iff]
      intro f hf
      have := hnil f hf
      simpa using this
    · rename_i hne
      constructor
      · intro h
        cases h
      · intro hall
        exfalso
        apply hne
        simp only [List.isEmpty_iff, List.filter_eq_nil_iff]
        intro f hf
        simp [hall f hf]
  · intro hne
    simp only [validate_required_fields]
    rw [if_neg (by simpa [List.isEmpty_iff] using hne)]

/-- C3 counterexample: a field present with the integer value `0` is
neither absent, nor null, nor the empty string, yet the code reports it
as missing. -/
theorem C3_counterexample :
    validate_required_fields [("a", JVal.jint 0)] ["a"] =
      .error ⟨"Missing required fields: a", none⟩ ∧
    dictGet [("a", JVal.jint 0)] "a" = some (JVal.jint 0) ∧
    JVal.jint 0 ≠ JVal.jnull ∧ JVal.jint 0 ≠ JVal.jstr "" := by
  refine ⟨rfl, rfl, by simp, by simp⟩

/-- Witness for C3 (amended) on a payload missing two fields: both are
listed in the message. -/
theorem C3_required_fields_amended_witness :
    validate_required_fields [("submissionId", JVal.jstr "S")] ["submissionId", "a", "b"] =
      .error ⟨"Missing required fields: a, b", none⟩ :=
  (C3_required_fields_amended [("submissionId", JVal.jstr "S")]
    ["submissionId", "a", "b"]).2.1 (by decide)

/-! ## Character and parsing lemmas -/

theorem toNat_ofNat_of_lt {n : Nat} (h : n < 55296) : (Char.ofNat n).toNat = n := by
  have hv : n.isValidChar := Or.inl h
  simp only [Char.ofNat, dif_pos hv, Char.ofNatAux, Char.toNat]
  simp [UInt32.toNat]

theorem digit_not_space {c : Char} (h : isAsciiDigit c = true) : isPySpace c = false := by
  simp only [isAsciiDigit, Bool.and_eq_true, decide_eq_true_eq] at h
  simp only [isPySpace, Bool.or_eq_false_iff, beq_eq_false_iff_ne, ne_eq]
  omega

theorem dropWhile_eq_self_of_head {α : Type} {p : α → Bool} {a : α} {l : List α}
    (h : p a = false) : (a :: l).dropWhile p = a :: l := by
  simp [List.dropWhile_cons, h]

theorem dropWhile_eq_self_of_all {α : Type} {p : α → Bool} {l : List α}
    (h : ∀ a ∈ l, p a = false) : l.dropWhile p = l := by
  cases l with
  | nil => rfl
  | cons a t => exact dropWhile_eq_self_of_head (h a (List.mem_cons_self a t))

theorem pyStrip_digits {cs : List Char} (h : ∀ c ∈ cs, isAsciiDigit c = true) :
    pyStrip cs = cs := by
  have hns : ∀ c ∈ cs, isPySpace c = false := fun c hc => digit_not_space (h c hc)
  simp only [pyStrip, dropWhile_eq_self_of_all hns]
  rw [dropWhile_eq_self_of_all (fun c hc => hns c (List.mem_reverse.mp hc)),
    List.reverse_reverse]

theorem pyStrip_digits_newline {cs : List Char} (hne : cs ≠ [])
    (h : ∀ c ∈ cs, isAsciiDigit c = true) : pyStrip (cs ++ ['\n']) = cs := by
  have hns : ∀ c ∈ cs, isPySpace c = false := fun c hc => digit_not_space (h c hc)
  obtain ⟨a, t, rfl⟩ := List.exists_cons_of_ne_nil hne
  have h1 : List.dropWhile isPySpace ((a :: t) ++ ['\n']) = (a :: t) ++ ['\n'] := by
    rw [List.cons_append]
    exact dropWhile_eq_self_of_head (hns a (List.mem_cons_self a t))
  have h2 : ((a :: t) ++ ['\n']).reverse = '\n' :: (a :: t).reverse := by
    rw [List.reverse_append]
    rfl
  have h3 : List.dropWhile isPySpace ('\n' :: (a :: t).reverse) =
      List.dropWhile isPySpace ((a :: t).reverse) := by
    rw [List.dropWhile_cons, if_pos (show isPySpace '\n' = true by decide)]
  have h4 : List.dropWhile isPySpace ((a :: t).reverse) = (a :: t).reverse :=
    dropWhile_eq_self_of_all (fun c hc => hns c (List.mem_reverse.mp hc))
  rw [pyStrip, h1, h2, h3, h4, List.reverse_reverse]

theorem parseDigits_digits {ds : List Char} (hne : ds ≠ [])
    (h : ∀ c ∈ ds, isAsciiDigit c = true) : parseDigits ds = some (digitsToNat ds) := by
  have hall : ds.all isAsciiDigit = true := List.all_eq_true.mpr h
  simp [parseDigits, List.isEmpty_iff, hne, hall]

theorem digit_ne_plus {c : Char} (h : isAsciiDigit c = true) : (c == '+') = false := by
  rw [beq_eq_false_iff_ne]
  intro hc
  subst hc
  exact absurd h (by decide)

theorem digit_ne_minus {c : Char} (h : isAsciiDigit c = true) : (c == '-') = false := by
  rw [beq_eq_false_iff_ne]
  intro hc
  subst hc
  exact absurd h (by decide)

theorem pyIntOfChars?_digits {ds : List Char} (hne : ds ≠ [])
    (h : ∀ c ∈ ds, isAsciiDigit c = true) :
    pyIntOfChars? ds = some ((digitsToNat ds : Int)) := by
  obtain ⟨a, t, rfl⟩ := List.exists_cons_of_ne_nil hne
  have hstrip : pyStrip (a :: t) = a :: t := pyStrip_digits h
  rw [pyIntOfChars?, hstrip]
  simp only [digit_ne_plus (h a (List.mem_cons_self a t)),
    digit_ne_minus (h a (List.mem_cons_self a t)), Bool.false_eq_true, if_false,
    parseDigits_digits hne h]
  rfl

theorem pyIntOfChars?_digits_newline {ds : List Char} (hne : ds ≠ [])
    (h : ∀ c ∈ ds, isAsciiDigit c = true) :
    pyIntOfChars? (ds ++ ['\n']) = some ((digitsToNat ds : Int)) := by
  obtain ⟨a, t, rfl⟩ := List.exists_cons_of_ne_nil hne
  have hstrip : pyStrip ((a :: t) ++ ['\n']) = a :: t := pyStrip_digits_newline hne h
  rw [pyIntOfChars?, hstrip]
  simp only [digit_ne_plus (h a (List.mem_cons_self a t)),
    digit_ne_minus (h a (List.mem_cons_self a t)), Bool.false_eq_true, if_false,
    parseDigits_digits hne h]
  rfl

/-! ## UEN validation (C4) -/

/-- The shape stated by the specification: 8 or 9 ASCII digits followed
by exactly one ASCII upper-case letter, nothing else. -/
def specUENShape (cs : List Char) : Prop :=
  ∃ ds c, (ds.length = 8 ∨ ds.length = 9) ∧ (∀ d ∈ ds, isAsciiDigit d = true) ∧
    isAsciiUpper c = true ∧ cs = ds ++ [c]

theorem uenCoreChars_eq_true_iff (cs : List Char) :
    uenCoreChars cs = true ↔ specUENShape cs := by
  constructor
  · intro h
    simp only [uenCoreChars, Bool.or_eq_true, Bool.and_eq_true, beq_iff_eq,
      List.all_eq_true] at h
    rcases h with ⟨⟨hlen, hdig⟩, hup⟩ | ⟨⟨hlen, hdig⟩, hup⟩
    · have hd : (cs.drop 8).length = 1 := by rw [List.length_drop, hlen]
      obtain ⟨c, hc⟩ := List.length_eq_one.mp hd
      refine ⟨cs.take 8, c, Or.inl ?_, hdig, ?_, ?_⟩
      · rw [List.length_take, hlen]
        omega
      · exact hup c (hc ▸ List.mem_singleton_self c)
      · rw [← hc, List.take_append_drop]
    · have hd : (cs.drop 9).length = 1 := by rw [List.length_drop, hlen]
      obtain ⟨c, hc⟩ := List.length_eq_one.mp hd
      refine ⟨cs.take 9, c, Or.inr ?_, hdig, ?_, ?_⟩
      · rw [List.length_take, hlen]
        omega
      · exact hup c (hc ▸ List.mem_singleton_self c)
      · rw [← hc, List.take_append_drop]
  · rintro ⟨ds, c, hlen, hdig, hup, rfl⟩
    simp only [uenCoreChars, Bool.or_eq_true, Bool.and_eq_true, beq_iff_eq,
      List.all_eq_true, List.length_append, List.length_singleton]
    rcases hlen with h8 | h9
    · refine Or.inl ⟨⟨by omega, ?_⟩, ?_⟩
      · intro d hd
        rw [← h8, List.take_left] at hd
        exact hdig d hd
      · intro d hd
        rw [← h8, List.drop_left] at hd
        rw [List.mem_singleton.mp hd]
        exact hup
    · refine Or.inr ⟨⟨by omega, ?_⟩, ?_⟩
      · intro d hd
        rw [← h9, List.take_left] at hd
        exact hdig d hd
      · intro d hd
        rw [← h9, List.drop_left] at hd
        rw [List.mem_singleton.mp hd]
        exact hup

/-- Python `$` semantics for an anchored core pattern: the string matches
iff it has the core shape or is the core shape followed by one newline. -/
theorem reMatchDollar_iff (core : List Char → Bool) (spec : List Char → Prop)
    (hcore : ∀ cs, core cs = true ↔ spec cs) (cs : List Char) :
    reMatchDollar core cs = true ↔
      (spec cs ∨ ∃ t, cs = t ++ ['\n'] ∧ spec t) := by
  simp only [reMatchDollar, Bool.or_eq_true]
  constructor
  · rintro (h | h)
    · exact Or.inl ((hcore cs).mp h)
    · right
      rcases hg : cs.getLast? with _ | c
      · rw [hg] at h
        simp at h
      · rw [hg] at h
        simp only [Bool.and_eq_true, beq_iff_eq] at h
        obtain ⟨rfl, hdrop⟩ := h
        refine ⟨cs.dropLast, ?_, (hcore _).mp hdrop⟩
        exact (List.dropLast_append_getLast? '\n' hg).symm
  · rintro (h | ⟨t, rfl, ht⟩)
    · exact Or.inl ((hcore cs).mpr h)
    · right
      rw [List.getLast?_concat]
      simp only [Bool.and_eq_true, beq_iff_eq, List.dropLast_concat]
      exact ⟨by trivial, (hcore t).mpr ht⟩

theorem validate_uen_ok_iff (s : String) :
    validate_uen (JVal.jstr s) = .ok s ↔
      (specUENShape s.data ∨ ∃ t, s.data = t ++ ['\n'] ∧ specUENShape t) := by
  rw [← reMatchDollar_iff uenCoreChars specUENShape uenCoreChars_eq_true_iff s.data]
  by_cases hs : s = ""
  · subst hs
    refine iff_of_false (fun h => ?_) (by decide)
    exact Except.noConfusion h
  · have htruthy : (JVal.jstr s).truthy = true := by simp [JVal.truthy, hs]
    simp only [validate_uen, htruthy, if_true]
    by_cases hm : reMatchDollar uenCoreChars s.data = true
    · rw [if_pos hm]
      simp [hm]
    · rw [if_neg hm]
      simp only [Bool.not_eq_true] at hm
      simp [hm]

/-- C4 (amended): `validate_uen` rejects an absent value; for a string it
succeeds (returning the input unchanged) iff the input is 8 or 9 ASCII
digits followed by one ASCII upper-case letter, *or that same shape
followed by a single trailing newline* (Python's `$` matches before a
trailing newline); `12345678A` passes while `1234567A` (7 digits) and
`12345678a` (lower-case letter) fail. -/
theorem C4_uen_amended :
    validate_uen JVal.jnull =
      .error (PyExc.validation ⟨"companyUEN is required", none⟩) ∧
    (∀ s : String, validate_uen (JVal.jstr s) = .ok s ↔
      (specUENShape s.data ∨ ∃ t, s.data = t ++ ['\n'] ∧ specUENShape t)) ∧
    (∀ (s r : String), validate_uen (JVal.jstr s) = .ok r → r = s) ∧
    validate_uen (JVal.jstr "12345678A") = .ok "12345678A" ∧
    validate_uen (JVal.jstr "1234567A") =
      .error (PyExc.validation
        ⟨"Invalid UEN format. Expected format: 12345678A or 123456789A", none⟩) ∧
    validate_uen (JVal.jstr "12345678a") =
      .error (PyExc.validation
        ⟨"Invalid UEN format. Expected format: 12345678A or 123456789A", none⟩) := by
  refine ⟨rfl, validate_uen_ok_iff, ?_, rfl, rfl, rfl⟩
  intro s r h
  simp only [validate_uen] at h
  split at h
  · split at h
    · injection h with h2
      exact h2.symm
    · cases h
  · cases h

/-- Witness for C4 (amended): the valid UEN `201234567D` is accepted
unchanged. -/
theorem C4_uen_amended_witness :
    validate_uen (JVal.jstr "201234567D") = .ok "201234567D" :=
  (C4_uen_amended.2.1 "201234567D").mpr
    (Or.inl ⟨"201234567".data, 'D', Or.inr (by decide), by decide, by decide, by decide⟩)

/-- C4 counterexample: `12345678A\n` is not 8 or 9 digits followed by one
upper-case letter and nothing else, yet the code accepts it and returns
it unchanged, because Python's `$` also matches just before a trailing
newline. -/
theorem C4_counterexample :
    validate_uen (JVal.jstr "12345678A\n") = .ok "12345678A\n" ∧
    ¬ specUENShape "12345678A\n".data := by
  refine ⟨rfl, fun h => ?_⟩
  have := (uenCoreChars_eq_true_iff "12345678A\n".data).mpr h
  exact absurd this (by decide)

/-! ## Tax period validation (C5) -/

/-- The shape stated by the specification: exactly 6 ASCII digits whose
first four form a year in `[2000, 2100]` and last two a month in
`[1, 12]`. -/
def specTaxPeriod (cs : List Char) : Prop :=
  cs.length = 6 ∧ (∀ c ∈ cs, isAsciiDigit c = true) ∧
  2000 ≤ digitsToNat (cs.take 4) ∧ digitsToNat (cs.take 4) ≤ 2100 ∧
  1 ≤ digitsToNat (cs.drop 4) ∧ digitsToNat (cs.drop 4) ≤ 12

theorem taxCoreChars_eq_true_iff (cs : List Char) :
    taxCoreChars cs = true ↔ (cs.length = 6 ∧ ∀ c ∈ cs, isAsciiDigit c = true) := by
  simp [taxCoreChars, List.all_eq_true]

theorem tax_take_digits {cs : List Char} (h6 : cs.length = 6)
    (hdig : ∀ c ∈ cs, isAsciiDigit c = true) :
    pyIntOfChars? (cs.take 4) = some ((digitsToNat (cs.take 4) : Int)) := by
  have hlen : (cs.take 4).length = 4 := by rw [List.length_take, h6]; omega
  apply pyIntOfChars?_digits
  · intro hnil
    rw [hnil] at hlen
    exact absurd hlen (by decide)
  · exact fun c hc => hdig c (List.take_subset 4 cs hc)

theorem tax_drop_digits {cs : List Char} (h6 : cs.length = 6)
    (hdig : ∀ c ∈ cs, isAsciiDigit c = true) :
    pyIntOfChars? (cs.drop 4) = some ((digitsToNat (cs.drop 4) : Int)) := by
  have hlen : (cs.drop 4).length = 2 := by rw [List.length_drop, h6]
  apply pyIntOfChars?_digits
  · intro hnil
    rw [hnil] at hlen
    exact absurd hlen (by decide)
  · exact fun c hc => hdig c (List.drop_subset 4 cs hc)

theorem tax_drop_digits_newline {t : List Char} (h6 : t.length = 6)
    (hdig : ∀ c ∈ t, isAsciiDigit c = true) :
    pyIntOfChars? ((t ++ ['\n']).drop 4) = some ((digitsToNat (t.drop 4) : Int)) := by
  rw [List.drop_append_of_le_length (by omega)]
  have hlen : (t.drop 4).length = 2 := by rw [List.length_drop, h6]
  apply pyIntOfChars?_digits_newline
  · intro hnil
    rw [hnil] at hlen
    exact absurd hlen (by decide)
  · exact fun c hc => hdig c (List.drop_subset 4 t hc)

theorem taxBoundsCheck_ok_iff (s : String) (y m : Int) :
    taxBoundsCheck s y m = .ok s ↔ (2000 ≤ y ∧ y ≤ 2100 ∧ 1 ≤ m ∧ m ≤ 12) := by
  simp only [taxBoundsCheck]
  by_cases h1 : (decide (y < 2000) || decide (y > 2100)) = true
  · rw [if_pos h1]
    simp only [Bool.or_eq_true, decide_eq_true_eq] at h1
    refine iff_of_false (fun h => Except.noConfusion h) ?_
    rintro ⟨a, b, -, -⟩
    omega
  · rw [if_neg h1]
    simp only [Bool.or_eq_true, decide_eq_true_eq, not_or, not_lt] at h1
    obtain ⟨ha, hb⟩ := h1
    by_cases h2 : (decide (m < 1) || decide (m > 12)) = true
    · rw [if_pos h2]
      simp only [Bool.or_eq_true, decide_eq_true_eq] at h2
      refine iff_of_false (fun h => Except.noConfusion h) ?_
      rintro ⟨-, -, c, d⟩
      omega
    · rw [if_neg h2]
      simp only [Bool.or_eq_true, decide_eq_true_eq, not_or, not_lt] at h2
      obtain ⟨hc, hd⟩ := h2
      exact iff_of_true rfl ⟨by omega, by omega, by omega, by omega⟩

theorem validate_tax_period_eval {s : String} (htruthy : (JVal.jstr s).truthy = true)
    (hre : reMatchDollar taxCoreChars s.data = true) {y m : Int}
    (hy : pyIntOfChars? (s.data.take 4) = some y)
    (hm : pyIntOfChars? (s.data.drop 4) = some m) :
    validate_tax_period (JVal.jstr s) = taxBoundsCheck s y m := by
  simp only [validate_tax_period, htruthy, if_true, hre, hy, hm]

theorem validate_tax_period_ok_iff (s : String) :
    validate_tax_period (JVal.jstr s) = .ok s ↔
      (specTaxPeriod s.data ∨ ∃ t, s.data = t ++ ['\n'] ∧ specTaxPeriod t) := by
  by_cases hs : s = ""
  · subst hs
    refine iff_of_false (fun h => Except.noConfusion h) ?_
    rintro (⟨h6, -⟩ | ⟨t, ht, -⟩)
    · exact absurd h6 (by decide)
    · exact absurd ht (by simp)
  · have htruthy : (JVal.jstr s).truthy = true := by simp [JVal.truthy, hs]
    by_cases hre : reMatchDollar taxCoreChars s.data = true
    · have hshape := (reMatchDollar_iff taxCoreChars
        (fun cs => cs.length = 6 ∧ ∀ c ∈ cs, isAsciiDigit c = true)
        taxCoreChars_eq_true_iff s.data).mp hre
      rcases hshape with ⟨h6, hdig⟩ | ⟨t, hteq, h6, hdig⟩
      · rw [validate_tax_period_eval htruthy hre (tax_take_digits h6 hdig)
          (tax_drop_digits h6 hdig), taxBoundsCheck_ok_iff]
        constructor
        · rintro ⟨hy1, hy2, hm1, hm2⟩
          exact Or.inl ⟨h6, hdig, by omega, by omega, by omega, by omega⟩
        · rintro (⟨-, -, hy1, hy2, hm1, hm2⟩ | ⟨t, hteq, ht6, -⟩)
          · exact ⟨by omega, by omega, by omega, by omega⟩
          · rw [hteq] at h6
            simp only [List.length_append, List.length_singleton] at h6
            omega
      · have hy : pyIntOfChars? (s.data.take 4) =
            some ((digitsToNat (t.take 4) : Int)) := by
          rw [hteq, List.take_append_of_le_length (by omega)]
          exact tax_take_digits h6 hdig
        have hmm : pyIntOfChars? (s.data.drop 4) =
            some ((digitsToNat (t.drop 4) : Int)) := by
          rw [hteq]
          exact tax_drop_digits_newline h6 hdig
        rw [validate_tax_period_eval htruthy hre hy hmm, taxBoundsCheck_ok_iff]
        constructor
        · rintro ⟨hy1, hy2, hm1, hm2⟩
          exact Or.inr ⟨t, hteq, h6, hdig, by omega, by omega, by omega, by omega⟩
        · rintro (⟨h6', -⟩ | ⟨u, hueq, hu⟩)
          · rw [hteq] at h6'
            simp only [List.length_append, List.length_singleton] at h6'
            omega
          · have hut : t ++ ['\n'] = u ++ ['\n'] := by rw [← hteq, ← hueq]
            have : t = u := by
              have := congrArg List.dropLast hut
              simpa [List.dropLast_concat] using this
            subst this
            obtain ⟨-, -, hy1, hy2, hm1, hm2⟩ := hu
            exact ⟨by omega, by omega, by omega, by omega⟩
    · refine iff_of_false ?_ ?_
      · intro h
        simp only [validate_tax_period, htruthy, if_true, if_neg hre] at h
        exact Except.noConfusion h
      · intro hshape
        apply hre
        apply (reMatchDollar_iff taxCoreChars
          (fun cs => cs.length = 6 ∧ ∀ c ∈ cs, isAsciiDigit c = true)
          taxCoreChars_eq_true_iff s.data).mpr
        rcases hshape with ⟨h6, hdig, -⟩ | ⟨t, hteq, h6, hdig, -⟩
        · exact Or.inl ⟨h6, hdig⟩
        · exact Or.inr ⟨t, hteq, h6, hdig⟩

/-- C5 (amended): `validate_tax_period` rejects an absent value; for a
string it succeeds (returning the input unchanged) iff the input is
exactly 6 ASCII digits — *or 6 ASCII digits followed by a single trailing
newline*, since Python's `$` matches before a trailing newline — whose
year part lies in `[2000, 2100]` and month part in `[1, 12]`; `202413`
(month 13) fails, `189912` (year 1899) fails, `202412` and `209912`
pass. -/
theorem C5_tax_period_amended :
    validate_tax_period JVal.jnull =
      .error (PyExc.validation ⟨"taxPeriod is required", none⟩) ∧
    (∀ s : String, validate_tax_period (JVal.jstr s) = .ok s ↔
      (specTaxPeriod s.data ∨ ∃ t, s.data = t ++ ['\n'] ∧ specTaxPeriod t)) ∧
    (∀ (s r : String), validate_tax_period (JVal.jstr s) = .ok r → r = s) ∧
    validate_tax_period (JVal.jstr "202412") = .ok "202412" ∧
    validate_tax_period (JVal.jstr "209912") = .ok "209912" ∧
    validate_tax_period (JVal.jstr "202413") =
      .error (PyExc.validation ⟨"Invalid month in taxPeriod", none⟩) ∧
    validate_tax_period (JVal.jstr "189912") =
      .error (PyExc.validation ⟨"Invalid year in taxPeriod", none⟩) := by
  refine ⟨rfl, validate_tax_period_ok_iff, ?_, rfl, rfl, rfl, rfl⟩
  intro s r h
  simp only [validate_tax_period] at h
  split at h
  · split at h
    · split at h
      · simp only [taxBoundsCheck] at h
        split at h
        · cases h
        · split at h
          · cases h
          · injection h with h2
            exact h2.symm
      · cases h
    · cases h
  · cases h

/-- Witness for C5 (amended): the valid period `202412` is accepted
through the characterization. -/
theorem C5_tax_period_amended_witness :
    validate_tax_period (JVal.jstr "202412") = .ok "202412" :=
  (C5_tax_period_amended.2.1 "202412").mpr
    (Or.inl ⟨by decide, by decide, by decide, by decide, by decide, by decide⟩)

/-- C5 counterexample: `202412\n` is 7 characters, not exactly 6 ASCII
digits, yet the code accepts it and returns it unchanged (trailing
newline included), because Python's `$` also matches just before a
trailing newline and `int("12\n")` strips the whitespace. -/
theorem C5_counterexample :
    validate_tax_period (JVal.jstr "202412\n") = .ok "202412\n" ∧
    ("202412\n" : String).length = 7 := ⟨rfl, rfl⟩

/-! ## Submission status normalization (C8) -/

/-- Spec-side notion of a case-insensitive spelling of an all-upper-case
ASCII target: each character equals the target character or is its
lower-case counterpart (ASCII code + 32). -/
def caseFoldEqChars : List Char → List Char → Bool
  | [], [] => true
  | a :: as, b :: bs => (a == b || a.toNat == b.toNat + 32) && caseFoldEqChars as bs
  | _, _ => false

theorem pyCharUpper_eq_iff {a b : Char} (hb : isAsciiUpper b = true) :
    pyCharUpper a = b ↔ (a = b ∨ a.toNat = b.toNat + 32) := by
  simp only [isAsciiUpper, Bool.and_eq_true, decide_eq_true_eq] at hb
  constructor
  · intro h
    by_cases hl : isAsciiLower a = true
    · right
      rw [pyCharUpper, if_pos hl] at h
      simp only [isAsciiLower, Bool.and_eq_true, decide_eq_true_eq] at hl
      have hv : (Char.ofNat (a.toNat - 32)).toNat = a.toNat - 32 :=
        toNat_ofNat_of_lt (by omega)
      rw [h] at hv
      omega
    · left
      rw [pyCharUpper, if_neg hl] at h
      exact h
  · rintro (rfl | h32)
    · rw [pyCharUpper, if_neg]
      simp only [isAsciiLower, Bool.and_eq_true, decide_eq_true_eq]
      omega
    · have hl : isAsciiLower a = true := by
        simp only [isAsciiLower, Bool.and_eq_true, decide_eq_true_eq]
        omega
      rw [pyCharUpper, if_pos hl]
      have he : a.toNat - 32 = b.toNat := by omega
      rw [he, Char.ofNat_toNat]

theorem caseFoldEqChars_iff_map (as bs : List Char)
    (hbs : ∀ b ∈ bs, isAsciiUpper b = true) :
    caseFoldEqChars as bs = true ↔ as.map pyCharUpper = bs := by
  induction as generalizing bs with
  | nil =>
    cases bs with
    | nil => simp [caseFoldEqChars]
    | cons b bs => simp [caseFoldEqChars]
  | cons a as ih =>
    cases bs with
    | nil => simp [caseFoldEqChars]
    | cons b bs =>
      simp only [caseFoldEqChars, Bool.and_eq_true, List.map_cons, List.cons.injEq,
        Bool.or_eq_true, beq_iff_eq]
      rw [ih bs (fun x hx => hbs x (List.mem_cons_of_mem b hx))]
      constructor
      · rintro ⟨h1, h2⟩
        exact ⟨(pyCharUpper_eq_iff (hbs b (List.mem_cons_self b bs))).mpr h1, h2⟩
      · rintro ⟨h1, h2⟩
        exact ⟨(pyCharUpper_eq_iff (hbs b (List.mem_cons_self b bs))).mp h1, h2⟩

theorem pyUpper_eq_iff (s c : String) (hc : ∀ b ∈ c.data, isAsciiUpper b = true) :
    pyUpper s = c ↔ caseFoldEqChars s.data c.data = true := by
  rw [caseFoldEqChars_iff_map s.data c.data hc]
  constructor
  · intro h
    rw [← h]
    rfl
  · intro h
    rw [pyUpper, h]

theorem allowed_statuses_upper :
    ∀ c ∈ allowed_statuses, ∀ b ∈ c.data, isAsciiUpper b = true := by decide

theorem caseFold_exists_iff (s : String) :
    (∃ c ∈ allowed_statuses, caseFoldEqChars s.data c.data = true) ↔
      allowed_statuses.contains (pyUpper s) = true := by
  constructor
  · rintro ⟨c, hc, hfold⟩
    have heq := (pyUpper_eq_iff s c (allowed_statuses_upper c hc)).mpr hfold
    rw [heq]
    exact List.elem_eq_true_of_mem hc
  · intro h
    have hm : pyUpper s ∈ allowed_statuses := by simpa using h
    exact ⟨pyUpper s, hm,
      (pyUpper_eq_iff s (pyUpper s) (allowed_statuses_upper _ hm)).mp rfl⟩

/-- C8: `validate_submission_status` rejects an absent or empty value;
for a nonempty string it upper-cases the input and succeeds, returning
the upper-cased value, exactly when the input is a case-insensitive
spelling of one of SUCCESS, FAILED, PROCESSING, PENDING, REJECTED,
CANCELLED; otherwise it fails with a message enumerating that closed
set. -/
theorem C8_normalize_status :
    validate_submission_status JVal.jnull =
      .error (PyExc.validation ⟨"submissionStatus is required", none⟩) ∧
    validate_submission_status (JVal.jstr "") =
      .error (PyExc.validation ⟨"submissionStatus is required", none⟩) ∧
    (∀ s : String, s ≠ "" →
      ((∃ c ∈ allowed_statuses, caseFoldEqChars s.data c.data = true) →
        validate_submission_status (JVal.jstr s) = .ok (pyUpper s) ∧
          pyUpper s ∈ allowed_statuses) ∧
      (¬(∃ c ∈ allowed_statuses, caseFoldEqChars s.data c.data = true) →
        validate_submission_status (JVal.jstr s) =
          .error (PyExc.validation ⟨"Invalid status. Must be one of: SUCCESS, FAILED, PROCESSING, PENDING, REJECTED, CANCELLED", none⟩))) := by
  refine ⟨rfl, rfl, ?_⟩
  intro s hs
  have htruthy : (JVal.jstr s).truthy = true := by simp [JVal.truthy, hs]
  constructor
  · intro hex
    have hcont := (caseFold_exists_iff s).mp hex
    refine ⟨?_, by simpa using hcont⟩
    simp only [validate_submission_status, htruthy, if_true, hcont, if_pos]
  · intro hnex
    have hcont : allowed_statuses.contains (pyUpper s) = false := by
      rcases Bool.eq_false_or_eq_true (allowed_statuses.contains (pyUpper s)) with h | h
      · exact absurd ((caseFold_exists_iff s).mpr h) hnex
      · exact h
    simp only [validate_submission_status, htruthy, if_true, hcont, Bool.false_eq_true,
      if_false]
    rfl

/-- Witness for C8: the lower-case spelling `success` normalizes to
`SUCCESS`, a member of the allowed set. -/
theorem C8_normalize_status_witness :
    validate_submission_status (JVal.jstr "success") = .ok (pyUpper "success") ∧
      pyUpper "success" ∈ allowed_statuses :=
  (C8_normalize_status.2.2 "success" (by decide)).1
    ⟨"SUCCESS", by decide, by decide⟩

/-! ## Optional integer coercion (C10) -/

theorem truncRat_nonneg_eq_floor {q : Rat} (h : 0 ≤ q) : truncRat q = ⌊q⌋ := by
  have hnum : 0 ≤ q.num := Rat.num_nonneg.mpr h
  rw [truncRat, Int.tdiv_eq_ediv hnum (Int.natCast_nonneg _)]
  exact Rat.floor_def.symm

theorem truncRat_neg_eq_ceil {q : Rat} (h : q < 0) : truncRat q = ⌈q⌉ := by
  have hnum : q.num < 0 := Rat.num_neg.mpr h
  have h1 : truncRat q = -((-q.num).tdiv q.den) := by
    rw [truncRat, ← Int.neg_tdiv, neg_neg]
  rw [h1, Int.tdiv_eq_ediv (by omega) (Int.natCast_nonneg _)]
  have h2 : -q.num / (q.den : Int) = ⌊-q⌋ := by
    rw [Rat.floor_def, Rat.neg_num, Rat.neg_den]
  rw [h2, Int.floor_neg, neg_neg]

def envC10 : Env := ⟨"REQ", "TS", "IP", "POST"⟩

def payloadC10 : Dict :=
  [("submissionId", JVal.jstr "C1"), ("submissionStatus", JVal.jstr "SUCCESS"),
   ("submissionDateTime", JVal.jstr "D"), ("companyUEN", JVal.jstr "12345678A"),
   ("recordType", JVal.jstr "COMMISSION"), ("recordPeriod", JVal.jstr "2024"),
   ("totalRecords", JVal.jfloat (mkRat 37 10))]

/-- C10: the optional integer fields (`totalRecords`, `totalDonations`)
accept fractional numeric values by truncating toward zero (`int()` on a
float equals the floor for nonnegative values and the ceiling for
negative ones), accept booleans as 0/1, accept parsable strings, and
reject exactly unparsable strings and conversions with a negative result;
a commission payload with `totalRecords = 3.7` is accepted and stores the
integer 3. -/
theorem C10_optional_int_coercion :
    (∀ (name : String) (q : Rat), validate_optional_int name (some (JVal.jfloat q)) =
        (if truncRat q < 0 then .error ⟨name ++ " must be non-negative", none⟩
         else .ok (some (truncRat q)))) ∧
    (∀ q : Rat, 0 ≤ q → truncRat q = ⌊q⌋) ∧
    (∀ q : Rat, q < 0 → truncRat q = ⌈q⌉) ∧
    (∀ (name : String) (b : Bool), validate_optional_int name (some (JVal.jbool b)) =
        .ok (some (if b then 1 else 0))) ∧
    (∀ (name : String) (n : Int), validate_optional_int name (some (JVal.jint n)) =
        (if n < 0 then .error ⟨name ++ " must be non-negative", none⟩
         else .ok (some n))) ∧
    (∀ (name s : String), validate_optional_int name (some (JVal.jstr s)) =
        (match pyIntOfString? s with
         | none => .error ⟨name ++ " must be a valid integer", none⟩
         | some n =>
           if n < 0 then .error ⟨name ++ " must be non-negative", none⟩
           else .ok (some n))) ∧
    (∀ name : String, validate_optional_int name none = .ok none) ∧
    ((commission_records_callback envC10 payloadC10 []).2.map
        (fun e => dictGet e.callback_data "totalRecords") = [some (JVal.jint 3)]) := by
  refine ⟨?_, fun q h => truncRat_nonneg_eq_floor h, fun q h => truncRat_neg_eq_ceil h,
    ?_, ?_, ?_, fun name => rfl, ?_⟩
  · intro name q
    by_cases h : truncRat q < 0 <;> simp [validate_optional_int, pyIntConv, h]
  · intro name b
    cases b <;> simp [validate_optional_int, pyIntConv]
  · intro name n
    by_cases h : n < 0 <;> simp [validate_optional_int, pyIntConv, h]
  · intro name s
    cases hp : pyIntOfString? s with
    | none => simp [validate_optional_int, pyIntConv, hp]
    | some n =>
      by_cases h : n < 0 <;> simp [validate_optional_int, pyIntConv, hp, h]
  · rfl

/-- Witness for C10: `int(3.7)` is the floor of `3.7`, namely 3. -/
theorem C10_optional_int_coercion_witness :
    truncRat (mkRat 37 10) = ⌊mkRat 37 10⌋ ∧ truncRat (mkRat 37 10) = 3 :=
  ⟨C10_optional_int_coercion.2.1 (mkRat 37 10) (by decide), by decide⟩

/-! ## Well-formed GST payloads (C2) -/

/-- The optional `totalTaxAmount` is absent (or JSON null) or a value
that `float()` converts to a nonnegative number. -/
def gstOptionalTaxOk : Option JVal → Prop
  | none => True
  | some v => ∃ q, pyFloatConv v = some q ∧ 0 ≤ q

/-- The `errors` value either is falsy (so it is never joined) or can be
joined by `', '.join` (a string, or a list of strings). -/
def errorsFieldOk (v : JVal) : Prop :=
  v.truthy = false ∨ (pyJoin v).isSome = true

/-- A well-formed GST payload in the sense of the specification: the six
required fields are present and truthy, `submissionStatus` is a
case-insensitive spelling of a canonical status, `companyUEN` has the
strict 8-or-9-digits-plus-upper-case-letter shape, `formType` is `F5` or
`F8`, `taxPeriod` is 6 digits with year and month in range, and the
optional fields are well typed. -/
def wellFormedGST (d : Dict) : Prop :=
  truthyOpt (dictGet d "submissionId") = true ∧
  truthyOpt (dictGet d "submissionDateTime") = true ∧
  (∃ st, dictGet d "submissionStatus" = some (JVal.jstr st) ∧
    ∃ c ∈ allowed_statuses, caseFoldEqChars st.data c.data = true) ∧
  (∃ u, dictGet d "companyUEN" = some (JVal.jstr u) ∧ specUENShape u.data) ∧
  (∃ ft, dictGet d "formType" = some (JVal.jstr ft) ∧ (ft = "F5" ∨ ft = "F8")) ∧
  (∃ tp, dictGet d "taxPeriod" = some (JVal.jstr tp) ∧ specTaxPeriod tp.data) ∧
  gstOptionalTaxOk (pyGet d "totalTaxAmount") ∧
  errorsFieldOk ((dictGet d "errors").getD (JVal.jlist []))

theorem contains_upper_ne_empty {st : String}
    (hc : allowed_statuses.contains (pyUpper st) = true) : st ≠ "" := by
  intro h
  subst h
  exact absurd hc (by decide)

theorem validate_submission_status_ok {st : String}
    (hc : allowed_statuses.contains (pyUpper st) = true) :
    validate_submission_status (JVal.jstr st) = .ok (pyUpper st) := by
  have htruthy : (JVal.jstr st).truthy = true := by
    simp [JVal.truthy, contains_upper_ne_empty hc]
  simp only [validate_submission_status, htruthy, if_true, hc, if_pos]

theorem validate_required_fields_ok {d : Dict} {fs : List String}
    (h : ∀ f ∈ fs, truthyOpt (dictGet d f) = true) :
    validate_required_fields d fs = .ok () := by
  have hnil : fs.filter (fun field => !truthyOpt (dictGet d field)) = [] :=
    List.filter_eq_nil_iff.mpr (fun a ha => by simp [h a ha])
  simp [validate_required_fields, hnil]

theorem specUENShape_ne_empty {s : String} (h : specUENShape s.data) : s ≠ "" := by
  obtain ⟨ds, c, -, -, -, heq⟩ := h
  intro hs
  subst hs
  exact absurd heq.symm (by simp)

theorem specTaxPeriod_ne_empty {s : String} (h : specTaxPeriod s.data) : s ≠ "" := by
  obtain ⟨h6, -⟩ := h
  intro hs
  subst hs
  exact absurd h6 (by decide)

theorem truthyOpt_of_jstr {d : Dict} {k : String} {s : String}
    (hk : dictGet d k = some (JVal.jstr s)) (hs : s ≠ "") :
    truthyOpt (dictGet d k) = true := by
  simp [truthyOpt, hk, JVal.truthy, hs]

theorem validate_optional_float_ok (name : String) {v : Option JVal}
    (h : gstOptionalTaxOk v) : ∃ tq, validate_optional_float name v = .ok tq := by
  cases v with
  | none => exact ⟨none, rfl⟩
  | some w =>
    simp only [gstOptionalTaxOk] at h
    obtain ⟨q, hq, h0⟩ := h
    refine ⟨some q, ?_⟩
    simp only [validate_optional_float, hq]
    rw [if_neg (not_lt.mpr h0)]

theorem gstValidate_ok {d : Dict} (hwf : wellFormedGST d) :
    ∃ f, gstValidate d = .ok f ∧ errorsFieldOk f.errors := by
  obtain ⟨hsid, hsdt, ⟨st, hst, hstc⟩, ⟨u, hu, huc⟩, ⟨ft, hft, hftv⟩,
    ⟨tp, htp, htpv⟩, htax, herr⟩ := hwf
  have hcont : allowed_statuses.contains (pyUpper st) = true :=
    (caseFold_exists_iff st).mp hstc
  have hreq : validate_required_fields d gst_required_fields = .ok () := by
    apply validate_required_fields_ok
    intro f hf
    simp only [gst_required_fields, List.mem_cons, List.not_mem_nil, or_false] at hf
    rcases hf with rfl | rfl | rfl | rfl | rfl | rfl
    · exact hsid
    · exact truthyOpt_of_jstr hst (contains_upper_ne_empty hcont)
    · rcases hftv with rfl | rfl <;> simp [truthyOpt, hft, JVal.truthy]
    · exact hsdt
    · exact truthyOpt_of_jstr hu (specUENShape_ne_empty huc)
    · exact truthyOpt_of_jstr htp (specTaxPeriod_ne_empty htpv)
  have hstat : validate_submission_status (pyIndex d "submissionStatus") =
      .ok (pyUpper st) := by
    rw [show pyIndex d "submissionStatus" = JVal.jstr st by simp [pyIndex, hst]]
    exact validate_submission_status_ok hcont
  have hform : ∃ ftv, validate_form_type (pyIndex d "formType") = .ok ftv := by
    rw [show pyIndex d "formType" = JVal.jstr ft by simp [pyIndex, hft]]
    rcases hftv with rfl | rfl
    · exact ⟨"F5", rfl⟩
    · exact ⟨"F8", rfl⟩
  have huen : validate_uen (pyIndex d "companyUEN") = .ok u := by
    rw [show pyIndex d "companyUEN" = JVal.jstr u by simp [pyIndex, hu]]
    exact (validate_uen_ok_iff u).mpr (Or.inl huc)
  have htaxp : validate_tax_period (pyIndex d "taxPeriod") = .ok tp := by
    rw [show pyIndex d "taxPeriod" = JVal.jstr tp by simp [pyIndex, htp]]
    exact (validate_tax_period_ok_iff tp).mpr (Or.inl htpv)
  obtain ⟨ftv, hform⟩ := hform
  obtain ⟨tq, hopt⟩ := validate_optional_float_ok "totalTaxAmount" htax
  refine ⟨{ submissionId := pyIndex d "submissionId"
            submissionStatus := pyUpper st
            formType := ftv
            submissionDateTime := pyIndex d "submissionDateTime"
            companyUEN := u
            taxPeriod := tp
            ackNumber := pyGet d "acknowledgementNumber"
            totalTax := tq
            errors := (dictGet d "errors").getD (JVal.jlist []) }, ?_, herr⟩
  simp only [gstValidate, hreq, hstat, hform, huen, htaxp, hopt]

theorem gstMessage_ok {f : GstFields} (herr : errorsFieldOk f.errors) :
    ∃ m, gstMessage f = .ok m := by
  unfold gstMessage
  by_cases h1 : (f.submissionStatus == "SUCCESS") = true
  · rw [if_pos h1]
    exact ⟨_, rfl⟩
  · rw [if_neg h1]
    by_cases h2 : (f.submissionStatus == "FAILED") = true
    · rw [if_pos h2]
      by_cases h3 : f.errors.truthy = true
      · rw [if_pos h3]
        rcases herr with h | h
        · rw [h3] at h
          cases h
        · obtain ⟨j, hj⟩ := Option.isSome_iff_exists.mp h
          rw [hj]
          exact ⟨_, rfl⟩
      · rw [if_neg h3]
        exact ⟨_, rfl⟩
    · rw [if_neg h2]
      exact ⟨_, rfl⟩

theorem gst_return_callback_ok {env : Env} {d : Dict} {logs : List LogEntry}
    (hwf : wellFormedGST d) :
    ∃ resp entry, gst_return_callback env d logs =
      (HandlerResult.ok200 resp, appendLog logs entry) ∧ resp.status = "received" := by
  obtain ⟨f, hval, herr⟩ := gstValidate_ok hwf
  obtain ⟨m, hmsg⟩ := gstMessage_ok herr
  refine ⟨create_success_response m f.submissionId env.requestId,
    mkLogEntry env "GST-RETURN" (gstCallbackData f), ?_, rfl⟩
  simp only [gst_return_callback, hval, log_callback, hmsg]

def envA : Env := ⟨"RQ", "TS", "IP", "POST"⟩

def dataA : Dict :=
  [("submissionId", JVal.jstr "S1"), ("submissionStatus", JVal.jstr "SUCCESS"),
   ("formType", JVal.jstr "F5"), ("submissionDateTime", JVal.jstr "D"),
   ("companyUEN", JVal.jstr "12345678A"), ("taxPeriod", JVal.jstr "202412")]

def entryA : LogEntry :=
  { requestId := "", timestamp := "", endpoint := "", callback_data := [],
    client_ip := "", method := "", status := JVal.jnull }

/-- C2 (amended): every well-formed GST payload is accepted with HTTP 200
and status `"received"`, and the accepted record is appended to the
store; the count increases by exactly 1 whenever the store held fewer
than `MAX_LOGS` records, and stays at `MAX_LOGS` (the oldest record being
evicted) when the store was full. -/
theorem C2_gst_accept_amended :
    ∀ (env : Env) (data : Dict) (logs : List LogEntry), wellFormedGST data →
      ∃ resp entry, gst_return_callback env data logs =
          (HandlerResult.ok200 resp, appendLog logs entry) ∧
        resp.status = "received" ∧
        (logs.length < MAX_LOGS → (appendLog logs entry).length = logs.length + 1) ∧
        (logs.length = MAX_LOGS → (appendLog logs entry).length = MAX_LOGS) := by
  intro env data logs hwf
  obtain ⟨resp, entry, heq, hst⟩ := gst_return_callback_ok hwf
  refine ⟨resp, entry, heq, hst, ?_, ?_⟩ <;>
    (intro h; rw [appendLog_length]; split <;> omega)

theorem wellFormedGST_dataA : wellFormedGST dataA := by
  refine ⟨rfl, rfl, ⟨"SUCCESS", rfl, "SUCCESS", by decide, by decide⟩,
    ⟨"12345678A", rfl, "12345678".data, 'A', Or.inl (by decide), by decide,
      by decide, by decide⟩,
    ⟨"F5", rfl, Or.inl rfl⟩,
    ⟨"202412", rfl, by decide, by decide, by decide, by decide, by decide, by decide⟩,
    trivial, Or.inl rfl⟩

/-- Witness for C2 (amended) at a concrete valid payload and the empty
store. -/
theorem C2_gst_accept_amended_witness :
    ∃ resp entry, gst_return_callback envA dataA [] =
        (HandlerResult.ok200 resp, appendLog [] entry) ∧
      resp.status = "received" ∧
      (([] : List LogEntry).length < MAX_LOGS →
        (appendLog ([] : List LogEntry) entry).length = ([] : List LogEntry).length + 1) ∧
      (([] : List LogEntry).length = MAX_LOGS →
        (appendLog ([] : List LogEntry) entry).length = MAX_LOGS) :=
  C2_gst_accept_amended envA dataA [] wellFormedGST_dataA

set_option maxRecDepth 10000 in
/-- C2 counterexample: with the store already at `MAX_LOGS` (200)
records, a well-formed GST payload is still accepted with HTTP 200 and
status `"received"`, but the count stays at 200 instead of increasing by
exactly 1 — the oldest record is evicted. -/
theorem C2_counterexample :
    (gst_return_callback envA dataA (List.replicate 200 entryA)).1 =
      HandlerResult.ok200
        { status := "received",
          message := "GST F5 submission for period 202412 processed successfully",
          submissionId := JVal.jstr "S1", requestId := "RQ" } ∧
    (List.replicate 200 entryA).length = 200 ∧
    (gst_return_callback envA dataA (List.replicate 200 entryA)).2.length = 200 := by
  refine ⟨rfl, by simp, rfl⟩

/-! ## Endpoint atomicity (C7) -/

/-- The two directions the amended claim asserts of a handler: a
validation failure (HTTP 400) leaves the store exactly as it was, and an
acceptance (HTTP 200) appends exactly one record (with FIFO eviction). -/
def HandlerAtomic
    (h : Env → Dict → List LogEntry → HandlerResult × List LogEntry) : Prop :=
  ∀ (env : Env) (data : Dict) (logs : List LogEntry),
    (∀ e, (h env data logs).1 = HandlerResult.err400 e → (h env data logs).2 = logs) ∧
    (∀ r, (h env data logs).1 = HandlerResult.ok200 r →
      ∃ entry, (h env data logs).2 = appendLog logs entry)

theorem gst_atomic : HandlerAtomic gst_return_callback := by
  intro env data logs
  constructor
  · intro e he
    cases hv : gstValidate data with
    | error ex => cases ex <;> simp [gst_return_callback, hv]
    | ok f =>
      cases hm : gstMessage f with
      | error ex => simp [gst_return_callback, hv, hm] at he
      | ok m => simp [gst_return_callback, hv, hm] at he
  · intro r hr
    cases hv : gstValidate data with
    | error ex =>
      cases ex with
      | validation e => simp [gst_return_callback, hv] at hr
      | typeError => simp [gst_return_callback, hv] at hr
    | ok f =>
      cases hm : gstMessage f with
      | error ex => simp [gst_return_callback, hv, hm] at hr
      | ok m =>
        exact ⟨mkLogEntry env "GST-RETURN" (gstCallbackData f),
          by simp [gst_return_callback, hv, hm, log_callback]⟩

theorem form_cs_atomic : HandlerAtomic form_cs_callback := by
  intro env data logs
  constructor
  · intro e he
    cases hv : formCsValidate data with
    | error ex => cases ex <;> simp [form_cs_callback, hv]
    | ok f =>
      cases hm : formCsMessage f with
      | error ex => simp [form_cs_callback, hv, hm] at he
      | ok m => simp [form_cs_callback, hv, hm] at he
  · intro r hr
    cases hv : formCsValidate data with
    | error ex =>
      cases ex with
      | validation e => simp [form_cs_callback, hv] at hr
      | typeError => simp [form_cs_callback, hv] at hr
    | ok f =>
      cases hm : formCsMessage f with
      | error ex => simp [form_cs_callback, hv, hm] at hr
      | ok m =>
        exact ⟨mkLogEntry env "FORM-CS" (formCsCallbackData f),
          by simp [form_cs_callback, hv, hm, log_callback]⟩

theorem commission_atomic : HandlerAtomic commission_records_callback := by
  intro env data logs
  constructor
  · intro e he
    cases hv : commissionValidate data with
    | error ex => cases ex <;> simp [commission_records_callback, hv]
    | ok f =>
      cases hm : commissionMessage f with
      | error ex => simp [commission_records_callback, hv, hm] at he
      | ok m => simp [commission_records_callback, hv, hm] at he
  · intro r hr
    cases hv : commissionValidate data with
    | error ex =>
      cases ex with
      | validation e => simp [commission_records_callback, hv] at hr
      | typeError => simp [commission_records_callback, hv] at hr
    | ok f =>
      cases hm : commissionMessage f with
      | error ex => simp [commission_records_callback, hv, hm] at hr
      | ok m =>
        exact ⟨mkLogEntry env "COMMISSION-RECORDS" (commissionCallbackData f),
          by simp [commission_records_callback, hv, hm, log_callback]⟩

theorem donation_atomic : HandlerAtomic donation_records_callback := by
  intro env data logs
  constructor
  · intro e he
    cases hv : donationValidate data with
    | error ex => cases ex <;> simp [donation_records_callback, hv]
    | ok f =>
      cases hm : donationMessage f with
      | error ex => simp [donation_records_callback, hv, hm] at he
      | ok m => simp [donation_records_callback, hv, hm] at he
  · intro r hr
    cases hv : donationValidate data with
    | error ex =>
      cases ex with
      | validation e => simp [donation_records_callback, hv] at hr
      | typeError => simp [donation_records_callback, hv] at hr
    | ok f =>
      cases hm : donationMessage f with
      | error ex => simp [donation_records_callback, hv, hm] at hr
      | ok m =>
        exact ⟨mkLogEntry env "DONATION-RECORDS" (donationCallbackData f),
          by simp [donation_records_callback, hv, hm, log_callback]⟩

theorem e_stamping_atomic : HandlerAtomic e_stamping_callback := by
  intro env data logs
  constructor
  · intro e he
    cases hv : eStampingValidate data with
    | error ex => cases ex <;> simp [e_stamping_callback, hv]
    | ok f =>
      cases hm : eStampingMessage f with
      | error ex => simp [e_stamping_callback, hv, hm] at he
      | ok m => simp [e_stamping_callback, hv, hm] at he
  · intro r hr
    cases hv : eStampingValidate data with
    | error ex =>
      cases ex with
      | validation e => simp [e_stamping_callback, hv] at hr
      | typeError => simp [e_stamping_callback, hv] at hr
    | ok f =>
      cases hm : eStampingMessage f with
      | error ex => simp [e_stamping_callback, hv, hm] at hr
      | ok m =>
        exact ⟨mkLogEntry env "E-STAMPING" (eStampingCallbackData f),
          by simp [e_stamping_callback, hv, hm, log_callback]⟩

/-- C7 (amended): on every callback endpoint, a validation failure
(HTTP 400) leaves the store exactly as it was, and an accepted submission
(HTTP 200) appends exactly one record.  (The original claim's stronger
"no partial-success state exists" fails: an internal error raised after
`log_callback` — see the counterexample — answers HTTP 500 with the
record already recorded.) -/
theorem C7_atomicity_amended :
    HandlerAtomic gst_return_callback ∧ HandlerAtomic form_cs_callback ∧
    HandlerAtomic commission_records_callback ∧
    HandlerAtomic donation_records_callback ∧ HandlerAtomic e_stamping_callback :=
  ⟨gst_atomic, form_cs_atomic, commission_atomic, donation_atomic, e_stamping_atomic⟩

def payloadC7 : Dict :=
  [("submissionId", JVal.jstr "S2"), ("submissionStatus", JVal.jstr "FAILED"),
   ("formType", JVal.jstr "F5"), ("submissionDateTime", JVal.jstr "D"),
   ("companyUEN", JVal.jstr "12345678A"), ("taxPeriod", JVal.jstr "202412"),
   ("errors", JVal.jlist [JVal.jint 1])]

/-- C7 counterexample: a GST payload that passes every validation but
reports status FAILED with a non-string `errors` list is appended to the
store by `log_callback`, after which the message f-string's
`', '.join(errors)` raises `TypeError`: the endpoint answers HTTP 500
*and* the record is recorded — a partial-success state. -/
theorem C7_counterexample :
    (gst_return_callback envA payloadC7 []).1 = HandlerResult.err500 ∧
    (gst_return_callback envA payloadC7 []).2.length = 1 := ⟨rfl, rfl⟩

def msgC7 : ValidationError :=
  ⟨"Missing required fields: submissionId, submissionStatus, formType, submissionDateTime, companyUEN, taxPeriod", none⟩

/-- Witness for C7 (amended): the empty payload fails validation on the
GST endpoint with HTTP 400 and the one-record store is untouched. -/
theorem C7_atomicity_amended_witness :
    (gst_return_callback envA [] [entryA]).2 = [entryA] :=
  (C7_atomicity_amended.1 envA [] [entryA]).1 msgC7 rfl
